import Mathlib

/-!
Shallow embedding of the GPU-AV command-validation common helpers
(gpuav_cmd_validation_common.cpp): the restorable pipeline/binding-table
snapshot (RestorablePipelineState::Create / ::Restore), the diagnostic
descriptor-set binder (BindValidationCmdsCommonDescSet) and the
capability-tiered buffer device-address resolver (GetBufferDeviceAddress).

Vulkan handles are modelled as natural numbers, with 0 standing for
VK_NULL_HANDLE.  The external dispatch calls made by this translation unit
are modelled as an emitted command list (the exact arguments of each
dispatch), so that properties of the emitted command sequence can be
stated and decided on concrete states.
-/

namespace GpuAv

/-- Handles are natural numbers; 0 is the null handle. -/
def VK_NULL_HANDLE : Nat := 0

/-- The pipeline bind points accepted by this code. -/
inductive VkPipelineBindPoint where
  | graphics
  | compute
  | rayTracing
deriving DecidableEq, Repr

/-- The state tracker's internal bind-point indices. -/
inductive BindPointLvl where
  | graphics
  | compute
  | rayTracing
deriving DecidableEq, Repr

/-- ConvertToLvlBindPoint from the state tracker: maps the API bind point to
the internal bind-point index. -/
def ConvertToLvlBindPoint : VkPipelineBindPoint → BindPointLvl
  | VkPipelineBindPoint.graphics => BindPointLvl.graphics
  | VkPipelineBindPoint.compute => BindPointLvl.compute
  | VkPipelineBindPoint.rayTracing => BindPointLvl.rayTracing

/-- Shader-object stages (ShaderObjectStage of the state tracker). -/
inductive ShaderObjectStage where
  | vertex
  | tessellationControl
  | tessellationEvaluation
  | geometry
  | fragment
  | compute
  | task
  | mesh
deriving DecidableEq, Repr

/-- A tracked shader object: its stage (create_info.stage) and its handle. -/
structure ShaderObject where
  stage : ShaderObjectStage
  handle : Nat
deriving DecidableEq, Repr

/-- A VkPushConstantRange: stage flags, byte offset, byte size. -/
structure VkPushConstantRange where
  stageFlags : Nat
  offset : Nat
  size : Nat
deriving DecidableEq, Repr

/-- A tracked descriptor set: its VkDescriptorSet handle (0 for the command
buffer's internal push-descriptor set, which has no API handle) and whether
it is a push-descriptor set. -/
structure DescriptorSet where
  handle : Nat
  is_push_descriptor : Bool
deriving DecidableEq, Repr

/-- One per-set slot of a LastBound record: the descriptor set bound at this
index, if any, and the dynamic offsets it was bound with. -/
structure PerSet where
  bound_descriptor_set : Option DescriptorSet
  dynamicOffsets : List Nat
deriving DecidableEq, Repr

/-- A tracked pipeline: its VkPipeline handle and the push-constant ranges
declared by its pipeline layout (PipelineLayoutState()->push_constant_ranges;
these are canonicalised in the tracker, so equality is value equality). -/
structure PipelineState where
  handle : Nat
  push_constant_ranges : List VkPushConstantRange
deriving DecidableEq, Repr

/-- Modelled from the spec: the state tracker's LastBound record for one bind
point — the bound pipeline (if any), the bound pipeline-layout handle, the
per-set descriptor bindings, the command buffer's internal push-descriptor
set (its pending writes, modelled as opaque tokens), and the bound shader
object per shader stage (the independent shader-stage binding model). -/
structure LastBound where
  pipeline_state : Option PipelineState
  pipeline_layout : Nat
  per_set : List PerSet
  push_descriptor_set : Option (List Nat)
  vertex_shader_object : Option Nat
  tessellation_control_shader_object : Option Nat
  tessellation_evaluation_shader_object : Option Nat
  geometry_shader_object : Option Nat
  fragment_shader_object : Option Nat
  compute_shader_object : Option Nat
  task_shader_object : Option Nat
  mesh_shader_object : Option Nat
deriving DecidableEq, Repr

/-- Modelled from the spec: LastBound::GetShaderState — the shader object
bound at the given stage, if any. -/
def LastBound.GetShaderState (lb : LastBound) : ShaderObjectStage → Option Nat
  | ShaderObjectStage.vertex => lb.vertex_shader_object
  | ShaderObjectStage.tessellationControl => lb.tessellation_control_shader_object
  | ShaderObjectStage.tessellationEvaluation => lb.tessellation_evaluation_shader_object
  | ShaderObjectStage.geometry => lb.geometry_shader_object
  | ShaderObjectStage.fragment => lb.fragment_shader_object
  | ShaderObjectStage.compute => lb.compute_shader_object
  | ShaderObjectStage.task => lb.task_shader_object
  | ShaderObjectStage.mesh => lb.mesh_shader_object

/-- The singleton-or-empty list of the shader object bound at a stage. -/
def optShader (stage : ShaderObjectStage) : Option Nat → List ShaderObject
  | some h => [ShaderObject.mk stage h]
  | none => []

/-- Modelled from the spec: LastBound::GetAllBoundGraphicsShaders — all
currently bound graphics-stage shader objects (every stage but compute). -/
def LastBound.GetAllBoundGraphicsShaders (lb : LastBound) : List ShaderObject :=
  optShader ShaderObjectStage.vertex lb.vertex_shader_object ++
  optShader ShaderObjectStage.tessellationControl lb.tessellation_control_shader_object ++
  optShader ShaderObjectStage.tessellationEvaluation lb.tessellation_evaluation_shader_object ++
  optShader ShaderObjectStage.geometry lb.geometry_shader_object ++
  optShader ShaderObjectStage.fragment lb.fragment_shader_object ++
  optShader ShaderObjectStage.task lb.task_shader_object ++
  optShader ShaderObjectStage.mesh lb.mesh_shader_object

/-- All shader objects bound in a LastBound record (any stage). -/
def LastBound.boundShaderObjects (lb : LastBound) : List ShaderObject :=
  lb.GetAllBoundGraphicsShaders ++ optShader ShaderObjectStage.compute lb.compute_shader_object

/-- The tracked command-buffer state read by this translation unit:
its handle, the diagnostic layer's common descriptor set
(GetValidationCmdCommonDescriptorSet), the LastBound record per bind point,
and the last-written push-constant byte buffer with the ranges it was
written against (push_constant_data / push_constant_data_ranges; the buffer
is indexed by absolute push-constant byte offset). -/
structure CommandBuffer where
  handle : Nat
  validation_cmd_common_descriptor_set : Nat
  lastBoundGraphics : LastBound
  lastBoundCompute : LastBound
  lastBoundRayTracing : LastBound
  push_constant_data : List Nat
  push_constant_data_ranges : List VkPushConstantRange
deriving DecidableEq, Repr

/-- cb_state.lastBound[lv_bind_point]. -/
def CommandBuffer.lastBound (cb : CommandBuffer) : BindPointLvl → LastBound
  | BindPointLvl.graphics => cb.lastBoundGraphics
  | BindPointLvl.compute => cb.lastBoundCompute
  | BindPointLvl.rayTracing => cb.lastBoundRayTracing

/-- The RestorablePipelineState snapshot, field for field. -/
structure RestorablePipelineState where
  cmd_buffer_ : Nat
  pipeline_bind_point_ : VkPipelineBindPoint
  pipeline_ : Nat
  pipeline_layout : Nat
  descriptor_sets_ : List (Nat × Nat)
  dynamic_offsets_ : List (List Nat)
  push_descriptor_set_index_ : Option Nat
  push_descriptor_set_writes_ : List Nat
  push_constants_data_ : List Nat
  push_constants_ranges_ : List VkPushConstantRange
  shader_objects_ : List ShaderObject
deriving DecidableEq, Repr

/-- The per-set capture loop of RestorablePipelineState::Create: walking
per_set from index i upward, record (handle, index) and the dynamic offsets
for every slot with a bound descriptor set, and remember the index of the
last slot whose bound set is a push-descriptor set.  Returns
(descriptor_sets_, dynamic_offsets_, push_descriptor_set_index_). -/
def captureSets : List PerSet → Nat → List (Nat × Nat) × List (List Nat) × Option Nat
  | [], _ => ([], [], none)
  | ps :: rest, i =>
    let r := captureSets rest (i + 1)
    match ps.bound_descriptor_set with
    | none => r
    | some ds =>
      ((ds.handle, i) :: r.1,
       ps.dynamicOffsets :: r.2.1,
       if ds.is_push_descriptor then
         match r.2.2 with
         | some j => some j
         | none => some i
       else r.2.2)

/-- RestorablePipelineState::Create: snapshot the LastBound state of the
given bind point.  With a bound pipeline, capture its handle, the bound
pipeline-layout handle, every bound descriptor set with its index and
dynamic offsets, any pending push-descriptor writes, and — only when the
bound pipeline layout's push-constant ranges equal the command buffer's
last-written ranges — the raw push-constant bytes and those ranges.  With
no bound pipeline, capture the bound shader objects (all graphics-stage
ones for the graphics bind point; the compute one, if present, for the
compute bind point). -/
def RestorablePipelineState.Create (cb_state : CommandBuffer)
    (bind_point : VkPipelineBindPoint) : RestorablePipelineState :=
  let lv_bind_point := ConvertToLvlBindPoint bind_point
  let last_bound := cb_state.lastBound lv_bind_point
  match last_bound.pipeline_state with
  | some pipeline_state =>
    let captured := captureSets last_bound.per_set 0
    { cmd_buffer_ := cb_state.handle
      pipeline_bind_point_ := bind_point
      pipeline_ := pipeline_state.handle
      pipeline_layout := last_bound.pipeline_layout
      descriptor_sets_ := captured.1
      dynamic_offsets_ := captured.2.1
      push_descriptor_set_index_ := captured.2.2
      push_descriptor_set_writes_ := last_bound.push_descriptor_set.getD []
      push_constants_data_ :=
        if pipeline_state.push_constant_ranges = cb_state.push_constant_data_ranges then
          cb_state.push_constant_data
        else []
      push_constants_ranges_ :=
        if pipeline_state.push_constant_ranges = cb_state.push_constant_data_ranges then
          pipeline_state.push_constant_ranges
        else []
      shader_objects_ := [] }
  | none =>
    { cmd_buffer_ := cb_state.handle
      pipeline_bind_point_ := bind_point
      pipeline_ := VK_NULL_HANDLE
      pipeline_layout := 0
      descriptor_sets_ := []
      dynamic_offsets_ := []
      push_descriptor_set_index_ := none
      push_descriptor_set_writes_ := []
      push_constants_data_ := []
      push_constants_ranges_ := []
      shader_objects_ :=
        if lv_bind_point = BindPointLvl.graphics then
          last_bound.GetAllBoundGraphicsShaders
        else if lv_bind_point = BindPointLvl.compute then
          match last_bound.GetShaderState ShaderObjectStage.compute with
          | some compute_shader => [ShaderObject.mk ShaderObjectStage.compute compute_shader]
          | none => []
        else [] }

/-- One dispatched command, with the exact arguments of the dispatch call.
bindDescriptorSets carries a single set handle because every
DispatchCmdBindDescriptorSets call in this translation unit passes
descriptorSetCount = 1; pushConstants carries the bytes the driver reads
from the data pointer (size bytes starting at the pointer). -/
inductive Cmd where
  | bindPipeline (cmd_buffer : Nat) (bind_point : VkPipelineBindPoint) (pipeline : Nat)
  | bindDescriptorSets (cmd_buffer : Nat) (bind_point : VkPipelineBindPoint) (layout : Nat)
      (first_set : Nat) (descriptor_set : Nat) (dynamic_offsets : List Nat)
  | pushDescriptorSet (cmd_buffer : Nat) (bind_point : VkPipelineBindPoint) (layout : Nat)
      (set_index : Nat) (writes : List Nat)
  | pushConstants (cmd_buffer : Nat) (layout : Nat) (stageFlags : Nat) (offset : Nat)
      (size : Nat) (values : List Nat)
  | bindShaders (cmd_buffer : Nat) (stages : List ShaderObjectStage) (shaders : List Nat)
deriving DecidableEq, Repr

/-- Is this command a pipeline or shader-object (re)bind? -/
def Cmd.isExecBind : Cmd → Bool
  | Cmd.bindPipeline _ _ _ => true
  | Cmd.bindShaders _ _ _ => true
  | _ => false

/-- Is this command a descriptor-set bind? -/
def Cmd.isBindDescriptorSetsCmd : Cmd → Bool
  | Cmd.bindDescriptorSets _ _ _ _ _ _ => true
  | _ => false

/-- Is this command a push-constants call? -/
def Cmd.isPushConstantsCmd : Cmd → Bool
  | Cmd.pushConstants _ _ _ _ _ _ => true
  | _ => false

/-- The size argument of a push-constants command (0 for other commands). -/
def Cmd.pushSize : Cmd → Nat
  | Cmd.pushConstants _ _ _ _ size _ => size
  | _ => 0

/-- The byte-offset argument of a push-constants command (0 otherwise). -/
def Cmd.pushOffset : Cmd → Nat
  | Cmd.pushConstants _ _ _ offset _ _ => offset
  | _ => 0

/-- The bytes a push-constants command hands the driver ([] otherwise). -/
def Cmd.pushValues : Cmd → List Nat
  | Cmd.pushConstants _ _ _ _ _ values => values
  | _ => []

/-- The descriptor-set rebind loop of Restore: one bind per captured entry
with a non-null handle, at the entry's original set index, with the
matching entry of dynamic_offsets_ (dynamic_offsets_[i]); null-handle
entries are skipped. -/
def restoreDescriptorSets (cmd_buffer : Nat) (bind_point : VkPipelineBindPoint)
    (layout : Nat) : List (Nat × Nat) → List (List Nat) → List Cmd
  | [], _ => []
  | (h, idx) :: rest, offs =>
    let tail := restoreDescriptorSets cmd_buffer bind_point layout rest (offs.drop 1)
    if h ≠ VK_NULL_HANDLE then
      Cmd.bindDescriptorSets cmd_buffer bind_point layout idx h (offs.headD []) :: tail
    else tail

/-- The descriptor-set rebind commands of Restore for this snapshot. -/
def RestorablePipelineState.descriptorSetCmds (s : RestorablePipelineState) : List Cmd :=
  restoreDescriptorSets s.cmd_buffer_ s.pipeline_bind_point_ s.pipeline_layout
    s.descriptor_sets_ s.dynamic_offsets_

/-- The push-descriptor reissue of Restore: one call when writes were
captured, at the captured push-descriptor set index. -/
def RestorablePipelineState.pushDescriptorCmds (s : RestorablePipelineState) : List Cmd :=
  if s.push_descriptor_set_writes_ ≠ [] then
    [Cmd.pushDescriptorSet s.cmd_buffer_ s.pipeline_bind_point_ s.pipeline_layout
      (s.push_descriptor_set_index_.getD 0) s.push_descriptor_set_writes_]
  else []

/-- The push-constant reissue of Restore: when bytes were captured, one call
per captured range of non-zero size, with that range's stage flags, offset
and size, reading the bytes from the START of the captured buffer (the data
pointer is push_constants_data_.data(), not advanced by the range's
offset). -/
def RestorablePipelineState.pushConstantCmds (s : RestorablePipelineState) : List Cmd :=
  if s.push_constants_data_ ≠ [] then
    s.push_constants_ranges_.filterMap (fun push_constant_range =>
      if push_constant_range.size = 0 then none
      else some (Cmd.pushConstants s.cmd_buffer_ s.pipeline_layout
        push_constant_range.stageFlags push_constant_range.offset
        push_constant_range.size
        (s.push_constants_data_.take push_constant_range.size)))
  else []

/-- The shader-object rebind of Restore: one call binding all captured
(stage, handle) pairs, when any were captured. -/
def RestorablePipelineState.shaderObjectCmds (s : RestorablePipelineState) : List Cmd :=
  if s.shader_objects_ ≠ [] then
    [Cmd.bindShaders s.cmd_buffer_ (s.shader_objects_.map ShaderObject.stage)
      (s.shader_objects_.map ShaderObject.handle)]
  else []

/-- RestorablePipelineState::Restore: the dispatched command sequence.
When a pipeline was captured: rebind it, then the descriptor sets, then the
push-descriptor writes, then the push constants.  Then, when shader objects
were captured, rebind them in one call. -/
def RestorablePipelineState.Restore (s : RestorablePipelineState) : List Cmd :=
  (if s.pipeline_ ≠ VK_NULL_HANDLE then
    Cmd.bindPipeline s.cmd_buffer_ s.pipeline_bind_point_ s.pipeline_ ::
      (s.descriptorSetCmds ++ s.pushDescriptorCmds ++ s.pushConstantCmds)
   else []) ++ s.shaderObjectCmds

/-- Modelled from the spec: cst::indices_count, the fixed maximum slot count
for diagnostic command / error-logger indices (exact value external to this
file; the claims depend only on the bound). -/
def indices_count : Nat := 16384

/-- Modelled from the spec: glsl::kDiagCommonDescriptorSet, the reserved
diagnostic descriptor set index (exact value external to this file). -/
def kDiagCommonDescriptorSet : Nat := 7

/-- 2^32 = 4294967296, the modulus of uint32_t arithmetic. -/
def UINT32_MOD : Nat := 4294967296

/-- BindValidationCmdsCommonDescSet: compute the two dynamic byte offsets
cmd_index * sizeof(uint32_t) and error_logger_index * sizeof(uint32_t)
(uint32_t arithmetic) and dispatch one descriptor-set bind of the command
buffer's common validation descriptor set at the reserved diagnostic set
index with those two dynamic offsets.  The asserted preconditions
cmd_index < cst::indices_count and error_logger_index < cst::indices_count
are hypotheses of the theorems about it. -/
def BindValidationCmdsCommonDescSet (cmd_buffer_state : CommandBuffer)
    (bind_point : VkPipelineBindPoint) (pipeline_layout : Nat)
    (cmd_index : Nat) (error_logger_index : Nat) : List Cmd :=
  [Cmd.bindDescriptorSets cmd_buffer_state.handle bind_point pipeline_layout
    kDiagCommonDescriptorSet cmd_buffer_state.validation_cmd_common_descriptor_set
    [cmd_index * 4 % UINT32_MOD, error_logger_index * 4 % UINT32_MOD]]

/-- The device extension flags read by GetBufferDeviceAddress. -/
structure DeviceExtensions where
  vk_ext_buffer_device_address : Bool
  vk_khr_buffer_device_address : Bool
deriving DecidableEq, Repr

/-- The Validator fields read by GetBufferDeviceAddress. -/
structure Validator where
  api_version : Nat
  device_extensions : DeviceExtensions
deriving DecidableEq, Repr

/-- VK_API_VERSION_1_2 = (1 << 22) | (2 << 12). -/
def VK_API_VERSION_1_2 : Nat := 4202496

/-- Which capability tier a device-address query was dispatched through. -/
inductive AddressPath where
  | core
  | ext
  | khr
deriving DecidableEq, Repr

/-- GetBufferDeviceAddress: try the core path when api_version >= 1.2, else
the EXT extension path, else the KHR extension path, else return 0.  The
three dispatch arguments are the addresses the respective driver entry
points would return; the result also records which path was dispatched
(none when no tier is available). -/
def GetBufferDeviceAddress (gpuav : Validator)
    (dispatch_core : Nat) (dispatch_ext : Nat) (dispatch_khr : Nat) :
    Nat × Option AddressPath :=
  if gpuav.api_version ≥ VK_API_VERSION_1_2 then
    (dispatch_core, some AddressPath.core)
  else if gpuav.device_extensions.vk_ext_buffer_device_address then
    (dispatch_ext, some AddressPath.ext)
  else if gpuav.device_extensions.vk_khr_buffer_device_address then
    (dispatch_khr, some AddressPath.khr)
  else (0, none)

/-- Overwrite the bytes of buf from position offset on with vals, truncated
at the end of buf. -/
def writeBytes : List Nat → Nat → List Nat → List Nat
  | [], _, _ => []
  | buf, _, [] => buf
  | _ :: buf, 0, v :: vals => v :: writeBytes buf 0 vals
  | b :: buf, o + 1, vals => b :: writeBytes buf o vals

/-- Modelled from the spec (external interface): the effect of one
dispatched command on the command buffer's push-constant byte buffer — a
push-constants call writes the bytes it hands the driver at its byte
offset; every other command leaves the buffer unchanged. -/
def applyCmdPushBytes (buf : List Nat) : Cmd → List Nat
  | Cmd.pushConstants _ _ _ offset _ values => writeBytes buf offset values
  | _ => buf

/-- The push-constant byte buffer after replaying a command sequence. -/
def applyCmdsPushBytes (buf : List Nat) (cmds : List Cmd) : List Nat :=
  cmds.foldl applyCmdPushBytes buf

/-- Modelled from the spec: the states reachable for one LastBound slot —
a tracked bound pipeline has a non-null handle, shader objects only bind
into the graphics/compute slots at their own stages (no compute shader
object in the graphics slot, no graphics-stage ones in the compute slot,
none at all in the ray-tracing slot). -/
def validLastBound (lb : LastBound) (slot : BindPointLvl) : Bool :=
  (match lb.pipeline_state with
   | some ps => decide (ps.handle ≠ VK_NULL_HANDLE)
   | none => true) &&
  (match slot with
   | BindPointLvl.graphics => lb.compute_shader_object.isNone
   | BindPointLvl.compute => lb.GetAllBoundGraphicsShaders.isEmpty
   | BindPointLvl.rayTracing => lb.boundShaderObjects.isEmpty)

/-- Modelled from the spec: the reachable tracked command-buffer states —
each slot is valid, and whenever the last-written push-constant ranges
contain a range of non-zero size the last-written byte buffer is non-empty
(the tracker resizes the buffer to cover the ranges before writing). -/
def validCommandBuffer (cb : CommandBuffer) : Bool :=
  validLastBound cb.lastBoundGraphics BindPointLvl.graphics &&
  validLastBound cb.lastBoundCompute BindPointLvl.compute &&
  validLastBound cb.lastBoundRayTracing BindPointLvl.rayTracing &&
  (cb.push_constant_data_ranges.all (fun r => r.size == 0) || !cb.push_constant_data.isEmpty)

/-- Does the command buffer have no bindings at all for this bind point
(no pipeline and no shader objects in the slot)? -/
def hasNoBindings (cb : CommandBuffer) (bind_point : VkPipelineBindPoint) : Bool :=
  let lb := cb.lastBound (ConvertToLvlBindPoint bind_point)
  lb.pipeline_state.isNone && lb.boundShaderObjects.isEmpty

/-- A command sequence whose head, if any, is the pipeline or shader-object
rebind, with no further pipeline/shader rebind afterwards: the
pipeline/shader bind is always issued first, never after a descriptor-set,
push-descriptor or push-constants command. -/
def execBindFirst : List Cmd → Prop
  | [] => True
  | c :: cs => Cmd.isExecBind c = true ∧ ∀ d ∈ cs, Cmd.isExecBind d = false

/-- A per-set slot with nothing bound (the getD default). -/
def emptyPerSet : PerSet := ⟨none, []⟩

/-- A LastBound slot with nothing bound. -/
def emptyLastBound : LastBound :=
  { pipeline_state := none
    pipeline_layout := 0
    per_set := []
    push_descriptor_set := none
    vertex_shader_object := none
    tessellation_control_shader_object := none
    tessellation_evaluation_shader_object := none
    geometry_shader_object := none
    fragment_shader_object := none
    compute_shader_object := none
    task_shader_object := none
    mesh_shader_object := none }

/-- A command buffer with nothing bound anywhere. -/
def emptyCommandBuffer : CommandBuffer :=
  { handle := 7
    validation_cmd_common_descriptor_set := 99
    lastBoundGraphics := emptyLastBound
    lastBoundCompute := emptyLastBound
    lastBoundRayTracing := emptyLastBound
    push_constant_data := []
    push_constant_data_ranges := [] }

/-- The round-trip failing input: a graphics pipeline whose layout declares
the single push-constant range {offset 4, size 4}, matching the command
buffer's last-written ranges, with last-written bytes [0,0,0,0,5,6,7,8]
(bytes 0..3 are the zero-filled unwritten region of the tracker's buffer,
bytes 4..7 were written through that range). -/
def cbOffsetRange : CommandBuffer :=
  { emptyCommandBuffer with
    lastBoundGraphics :=
      { emptyLastBound with
        pipeline_state := some { handle := 10, push_constant_ranges := [⟨1, 4, 4⟩] }
        pipeline_layout := 20 }
    push_constant_data := [0, 0, 0, 0, 5, 6, 7, 8]
    push_constant_data_ranges := [⟨1, 4, 4⟩] }

/-- The spec scenario: pipeline P = 10 with layout L = 20, descriptor set
D = 42 at index 2 with dynamic offset [4], push-constant bytes [1,2,3,4]
over range {offset 0, size 4, stage VERTEX = 1} matching L. -/
def cbScenario : CommandBuffer :=
  { emptyCommandBuffer with
    lastBoundGraphics :=
      { emptyLastBound with
        pipeline_state := some { handle := 10, push_constant_ranges := [⟨1, 0, 4⟩] }
        pipeline_layout := 20
        per_set :=
          [⟨none, []⟩, ⟨none, []⟩, ⟨some ⟨42, false⟩, [4]⟩] }
    push_constant_data := [1, 2, 3, 4]
    push_constant_data_ranges := [⟨1, 0, 4⟩] }

/-- A state whose bound layout's push-constant ranges differ from the
last-written ranges. -/
def cbMismatch : CommandBuffer :=
  { emptyCommandBuffer with
    lastBoundGraphics :=
      { emptyLastBound with
        pipeline_state := some { handle := 10, push_constant_ranges := [⟨1, 0, 8⟩] }
        pipeline_layout := 20 }
    push_constant_data := [1, 2, 3, 4]
    push_constant_data_ranges := [⟨1, 0, 4⟩] }

/-- A state with a bound push-descriptor set: the set bound at index 0 is
the command buffer's internal push-descriptor set, whose VkDescriptorSet
handle is VK_NULL_HANDLE, with one pending write. -/
def cbPushDescriptor : CommandBuffer :=
  { emptyCommandBuffer with
    lastBoundGraphics :=
      { emptyLastBound with
        pipeline_state := some { handle := 10, push_constant_ranges := [] }
        pipeline_layout := 20
        per_set := [⟨some ⟨0, true⟩, []⟩]
        push_descriptor_set := some [1] } }

/-- A state with regular bound sets at indices 0 and 2 (index 1 unbound). -/
def cbTwoSets : CommandBuffer :=
  { emptyCommandBuffer with
    lastBoundGraphics :=
      { emptyLastBound with
        pipeline_state := some { handle := 10, push_constant_ranges := [] }
        pipeline_layout := 20
        per_set := [⟨some ⟨41, false⟩, [8]⟩, ⟨none, []⟩, ⟨some ⟨42, false⟩, [4, 12]⟩] } }

/-- A state with shader objects bound (no pipeline): vertex and fragment
shaders in the graphics slot, a compute shader in the compute slot. -/
def cbShaderObjects : CommandBuffer :=
  { emptyCommandBuffer with
    lastBoundGraphics :=
      { emptyLastBound with
        vertex_shader_object := some 31
        fragment_shader_object := some 32 }
    lastBoundCompute :=
      { emptyLastBound with compute_shader_object := some 33 } }

/-! ## Helper lemmas -/

theorem mem_restoreDescriptorSets {cbh : Nat} {bp : VkPipelineBindPoint} {lay : Nat}
    {ds : List (Nat × Nat)} {offs : List (List Nat)} {c : Cmd}
    (hc : c ∈ restoreDescriptorSets cbh bp lay ds offs) :
    ∃ idx h dyn, c = Cmd.bindDescriptorSets cbh bp lay idx h dyn ∧ h ≠ VK_NULL_HANDLE := by
  induction ds generalizing offs with
  | nil => simp [restoreDescriptorSets] at hc
  | cons head rest ih =>
    obtain ⟨h, idx⟩ := head
    rw [restoreDescriptorSets] at hc
    split at hc
    · rcases List.mem_cons.mp hc with h1 | h2
      · exact ⟨idx, h, offs.headD [], h1, by assumption⟩
      · exact ih h2
    · exact ih hc

theorem length_restoreDescriptorSets (cbh : Nat) (bp : VkPipelineBindPoint) (lay : Nat)
    (ds : List (Nat × Nat)) (offs : List (List Nat)) :
    (restoreDescriptorSets cbh bp lay ds offs).length =
      (ds.filter (fun e => e.1 != VK_NULL_HANDLE)).length := by
  induction ds generalizing offs with
  | nil => simp [restoreDescriptorSets]
  | cons head rest ih =>
    obtain ⟨h, idx⟩ := head
    rw [restoreDescriptorSets]
    by_cases hh : h ≠ VK_NULL_HANDLE
    · rw [if_pos hh]
      simp [List.filter_cons, hh, ih]
    · rw [if_neg hh]
      push_neg at hh
      simp [List.filter_cons, hh, ih]

theorem mem_pushDescriptorCmds {s : RestorablePipelineState} {c : Cmd}
    (hc : c ∈ s.pushDescriptorCmds) :
    c = Cmd.pushDescriptorSet s.cmd_buffer_ s.pipeline_bind_point_ s.pipeline_layout
          (s.push_descriptor_set_index_.getD 0) s.push_descriptor_set_writes_ := by
  unfold RestorablePipelineState.pushDescriptorCmds at hc
  split at hc
  · simpa using hc
  · simp at hc

theorem mem_pushConstantCmds {s : RestorablePipelineState} {c : Cmd}
    (hc : c ∈ s.pushConstantCmds) :
    ∃ r ∈ s.push_constants_ranges_, r.size ≠ 0 ∧
      c = Cmd.pushConstants s.cmd_buffer_ s.pipeline_layout r.stageFlags r.offset r.size
            (s.push_constants_data_.take r.size) := by
  unfold RestorablePipelineState.pushConstantCmds at hc
  split at hc
  · obtain ⟨r, hr, hfr⟩ := List.mem_filterMap.mp hc
    refine ⟨r, hr, ?_, ?_⟩
    · intro h0
      rw [if_pos h0] at hfr
      exact Option.noConfusion hfr
    · by_cases h0 : r.size = 0
      · rw [if_pos h0] at hfr
        exact absurd hfr (by simp)
      · rw [if_neg h0] at hfr
        exact (Option.some_inj.mp hfr).symm
  · simp at hc

theorem mem_shaderObjectCmds {s : RestorablePipelineState} {c : Cmd}
    (hc : c ∈ s.shaderObjectCmds) :
    c = Cmd.bindShaders s.cmd_buffer_ (s.shader_objects_.map ShaderObject.stage)
          (s.shader_objects_.map ShaderObject.handle) := by
  unfold RestorablePipelineState.shaderObjectCmds at hc
  split at hc
  · simpa using hc
  · simp at hc

theorem mem_restore_push {s : RestorablePipelineState} {c : Cmd}
    (hc : c ∈ s.Restore) (hp : Cmd.isPushConstantsCmd c = true) :
    c ∈ s.pushConstantCmds := by
  unfold RestorablePipelineState.Restore at hc
  rcases List.mem_append.mp hc with h1 | h2
  · split at h1
    · rcases List.mem_cons.mp h1 with hb | hrest
      · subst hb
        simp [Cmd.isPushConstantsCmd] at hp
      · rcases List.mem_append.mp hrest with hd | hdp

        · rcases List.mem_append.mp hd with hds | hpd
          · obtain ⟨idx, h, dyn, hceq, _⟩ := mem_restoreDescriptorSets hds
            subst hceq
            simp [Cmd.isPushConstantsCmd] at hp
          · have := mem_pushDescriptorCmds hpd
            subst this
            simp [Cmd.isPushConstantsCmd] at hp
        · exact hdp
    · simp at h1
  · have := mem_shaderObjectCmds h2
    subst this
    simp [Cmd.isPushConstantsCmd] at hp

theorem countP_push_restoreDescriptorSets (cbh : Nat) (bp : VkPipelineBindPoint) (lay : Nat)
    (ds : List (Nat × Nat)) (offs : List (List Nat)) :
    (restoreDescriptorSets cbh bp lay ds offs).countP Cmd.isPushConstantsCmd = 0 := by
  rw [List.countP_eq_zero]
  intro c hc
  obtain ⟨idx, h, dyn, hceq, _⟩ := mem_restoreDescriptorSets hc
  subst hceq
  simp [Cmd.isPushConstantsCmd]

theorem countP_push_pushConstantCmds (s : RestorablePipelineState) :
    s.pushConstantCmds.countP Cmd.isPushConstantsCmd = s.pushConstantCmds.length := by
  rw [List.countP_eq_length]
  intro c hc
  obtain ⟨r, _, _, hceq⟩ := mem_pushConstantCmds hc
  subst hceq
  simp [Cmd.isPushConstantsCmd]

theorem length_pushConstantCmds (s : RestorablePipelineState)
    (hd : s.push_constants_data_ ≠ []) :
    s.pushConstantCmds.length =
      (s.push_constants_ranges_.filter (fun r => r.size != 0)).length := by
  unfold RestorablePipelineState.pushConstantCmds
  rw [if_pos hd]
  induction s.push_constants_ranges_ with
  | nil => simp
  | cons r rest ih =>
    by_cases h0 : r.size = 0
    · simp [List.filterMap_cons, List.filter_cons, h0, ih]
    · simp [List.filterMap_cons, List.filter_cons, h0, ih]

theorem countP_push_restore (s : RestorablePipelineState) :
    s.Restore.countP Cmd.isPushConstantsCmd =
      if s.pipeline_ ≠ VK_NULL_HANDLE then s.pushConstantCmds.length else 0 := by
  unfold RestorablePipelineState.Restore
  have hsh : s.shaderObjectCmds.countP Cmd.isPushConstantsCmd = 0 := by
    rw [List.countP_eq_zero]
    intro c hc
    have := mem_shaderObjectCmds hc
    subst this
    simp [Cmd.isPushConstantsCmd]
  have hpd : s.pushDescriptorCmds.countP Cmd.isPushConstantsCmd = 0 := by
    rw [List.countP_eq_zero]
    intro c hc
    have := mem_pushDescriptorCmds hc
    subst this
    simp [Cmd.isPushConstantsCmd]
  have hds : s.descriptorSetCmds.countP Cmd.isPushConstantsCmd = 0 := by
    unfold RestorablePipelineState.descriptorSetCmds
    exact countP_push_restoreDescriptorSets _ _ _ _ _
  by_cases hp : s.pipeline_ ≠ VK_NULL_HANDLE
  · rw [if_pos hp, if_pos hp]
    rw [List.countP_append, List.countP_cons]
    rw [List.countP_append, List.countP_append]
    rw [hds, hpd, hsh, countP_push_pushConstantCmds]
    simp [Cmd.isPushConstantsCmd]
  · rw [if_neg hp, if_neg hp]
    simpa using hsh

theorem Create_eq_of_pipeline {cb : CommandBuffer} {bp : VkPipelineBindPoint}
    {ps : PipelineState}
    (hbound : (cb.lastBound (ConvertToLvlBindPoint bp)).pipeline_state = some ps) :
    RestorablePipelineState.Create cb bp =
      { cmd_buffer_ := cb.handle
        pipeline_bind_point_ := bp
        pipeline_ := ps.handle
        pipeline_layout := (cb.lastBound (ConvertToLvlBindPoint bp)).pipeline_layout
        descriptor_sets_ := (captureSets (cb.lastBound (ConvertToLvlBindPoint bp)).per_set 0).1
        dynamic_offsets_ := (captureSets (cb.lastBound (ConvertToLvlBindPoint bp)).per_set 0).2.1
        push_descriptor_set_index_ :=
          (captureSets (cb.lastBound (ConvertToLvlBindPoint bp)).per_set 0).2.2
        push_descriptor_set_writes_ :=
          (cb.lastBound (ConvertToLvlBindPoint bp)).push_descriptor_set.getD []
        push_constants_data_ :=
          if ps.push_constant_ranges = cb.push_constant_data_ranges then
            cb.push_constant_data
          else []
        push_constants_ranges_ :=
          if ps.push_constant_ranges = cb.push_constant_data_ranges then
            ps.push_constant_ranges
          else []
        shader_objects_ := [] } := by
  simp only [RestorablePipelineState.Create]
  rw [hbound]

theorem Create_eq_of_no_pipeline {cb : CommandBuffer} {bp : VkPipelineBindPoint}
    (hbound : (cb.lastBound (ConvertToLvlBindPoint bp)).pipeline_state = none) :
    RestorablePipelineState.Create cb bp =
      { cmd_buffer_ := cb.handle
        pipeline_bind_point_ := bp
        pipeline_ := VK_NULL_HANDLE
        pipeline_layout := 0
        descriptor_sets_ := []
        dynamic_offsets_ := []
        push_descriptor_set_index_ := none
        push_descriptor_set_writes_ := []
        push_constants_data_ := []
        push_constants_ranges_ := []
        shader_objects_ :=
          if ConvertToLvlBindPoint bp = BindPointLvl.graphics then
            (cb.lastBound (ConvertToLvlBindPoint bp)).GetAllBoundGraphicsShaders
          else if ConvertToLvlBindPoint bp = BindPointLvl.compute then
            match (cb.lastBound (ConvertToLvlBindPoint bp)).GetShaderState
                ShaderObjectStage.compute with
            | some compute_shader =>
              [ShaderObject.mk ShaderObjectStage.compute compute_shader]
            | none => []
          else [] } := by
  simp only [RestorablePipelineState.Create]
  rw [hbound]

/-! ## Claim theorems -/

/-- Claim C1 (code bug): the capture/restore round trip does NOT leave the
binding table observably identical on every valid state.  On the valid
state cbOffsetRange — a bound graphics pipeline whose layout declares the
single matching push-constant range {offset 4, size 4} and whose
last-written bytes are [0,0,0,0,5,6,7,8] — replaying the command sequence
emitted by Restore after Create overwrites bytes 4..7 with bytes 0..3 of
the captured buffer (the data pointer handed to the push-constants call is
the start of the captured buffer, not advanced by the range's offset),
yielding [0,0,0,0,0,0,0,0] ≠ the pre-capture bytes. -/
theorem C1_round_trip_push_replay_bug :
    validCommandBuffer cbOffsetRange = true ∧
    cbOffsetRange.push_constant_data = [0, 0, 0, 0, 5, 6, 7, 8] ∧
    applyCmdsPushBytes cbOffsetRange.push_constant_data
        (RestorablePipelineState.Create cbOffsetRange VkPipelineBindPoint.graphics).Restore =
      [0, 0, 0, 0, 0, 0, 0, 0] ∧
    applyCmdsPushBytes cbOffsetRange.push_constant_data
        (RestorablePipelineState.Create cbOffsetRange VkPipelineBindPoint.graphics).Restore ≠
      cbOffsetRange.push_constant_data := by
  decide

/-- Claim C3: GetBufferDeviceAddress tries the capability tiers in strict
priority order — the core path when api_version >= 1.2 (regardless of the
extension flags, so the extension paths are never invoked when all tiers
are available), otherwise the EXT (vendor) extension path, otherwise the
KHR (cross-vendor) extension path — and returns exactly 0, through no
path, when none of the three tiers is available. -/
theorem C3_address_tier_priority (gpuav : Validator)
    (dispatch_core dispatch_ext dispatch_khr : Nat) :
    (gpuav.api_version ≥ VK_API_VERSION_1_2 →
      GetBufferDeviceAddress gpuav dispatch_core dispatch_ext dispatch_khr =
        (dispatch_core, some AddressPath.core)) ∧
    (gpuav.api_version < VK_API_VERSION_1_2 →
      gpuav.device_extensions.vk_ext_buffer_device_address = true →
      GetBufferDeviceAddress gpuav dispatch_core dispatch_ext dispatch_khr =
        (dispatch_ext, some AddressPath.ext)) ∧
    (gpuav.api_version < VK_API_VERSION_1_2 →
      gpuav.device_extensions.vk_ext_buffer_device_address = false →
      gpuav.device_extensions.vk_khr_buffer_device_address = true →
      GetBufferDeviceAddress gpuav dispatch_core dispatch_ext dispatch_khr =
        (dispatch_khr, some AddressPath.khr)) ∧
    (gpuav.api_version < VK_API_VERSION_1_2 →
      gpuav.device_extensions.vk_ext_buffer_device_address = false →
      gpuav.device_extensions.vk_khr_buffer_device_address = false →
      GetBufferDeviceAddress gpuav dispatch_core dispatch_ext dispatch_khr = (0, none)) := by
  unfold GetBufferDeviceAddress
  refine ⟨?_, ?_, ?_, ?_⟩
  · intro h
    rw [if_pos h]
  · intro h hext
    rw [if_neg (by omega), if_pos hext]
  · intro h hext hkhr
    rw [if_neg (by omega), if_neg (by simp [hext]), if_pos hkhr]
  · intro h hext hkhr
    rw [if_neg (by omega), if_neg (by simp [hext]), if_neg (by simp [hkhr])]

/-- Witness for C3 at concrete capability configurations: all three tiers
available uses the core path; only the KHR extension uses the KHR path and
returns its (nonzero) address; none available returns exactly 0. -/
theorem C3_address_tier_priority_witness :
    GetBufferDeviceAddress ⟨VK_API_VERSION_1_2, ⟨true, true⟩⟩ 11 22 33 =
      (11, some AddressPath.core) ∧
    GetBufferDeviceAddress ⟨0, ⟨false, true⟩⟩ 11 22 33 = (33, some AddressPath.khr) ∧
    GetBufferDeviceAddress ⟨0, ⟨false, false⟩⟩ 11 22 33 = (0, none) :=
  ⟨(C3_address_tier_priority ⟨VK_API_VERSION_1_2, ⟨true, true⟩⟩ 11 22 33).1 (by decide),
   (C3_address_tier_priority ⟨0, ⟨false, true⟩⟩ 11 22 33).2.2.1
     (by decide) (by decide) (by decide),
   (C3_address_tier_priority ⟨0, ⟨false, false⟩⟩ 11 22 33).2.2.2
     (by decide) (by decide) (by decide)⟩

/-- Claim C4: under the asserted preconditions cmd_index < indices_count and
error_logger_index < indices_count, BindValidationCmdsCommonDescSet
computes the two dynamic offsets as exactly index * sizeof(uint32_t) bytes
(no uint32_t wrap-around occurs) and issues a single descriptor-set bind of
the command buffer's common validation descriptor set at the reserved
diagnostic set index with exactly those two dynamic offsets. -/
theorem C4_diag_descriptor_bind (cb : CommandBuffer) (bind_point : VkPipelineBindPoint)
    (pipeline_layout cmd_index error_logger_index : Nat)
    (h1 : cmd_index < indices_count) (h2 : error_logger_index < indices_count) :
    BindValidationCmdsCommonDescSet cb bind_point pipeline_layout cmd_index
        error_logger_index =
      [Cmd.bindDescriptorSets cb.handle bind_point pipeline_layout
        kDiagCommonDescriptorSet cb.validation_cmd_common_descriptor_set
        [cmd_index * 4, error_logger_index * 4]] := by
  unfold BindValidationCmdsCommonDescSet
  unfold indices_count at h1 h2
  have e1 : cmd_index * 4 % UINT32_MOD = cmd_index * 4 := by
    apply Nat.mod_eq_of_lt
    unfold UINT32_MOD
    omega
  have e2 : error_logger_index * 4 % UINT32_MOD = error_logger_index * 4 := by
    apply Nat.mod_eq_of_lt
    unfold UINT32_MOD
    omega
  rw [e1, e2]

/-- Witness for C4 at cmd_index 3 and error_logger_index 5: offsets 12, 20. -/
theorem C4_diag_descriptor_bind_witness :
    BindValidationCmdsCommonDescSet emptyCommandBuffer VkPipelineBindPoint.graphics 20 3 5 =
      [Cmd.bindDescriptorSets emptyCommandBuffer.handle VkPipelineBindPoint.graphics 20
        kDiagCommonDescriptorSet emptyCommandBuffer.validation_cmd_common_descriptor_set
        [3 * 4, 5 * 4]] :=
  C4_diag_descriptor_bind emptyCommandBuffer VkPipelineBindPoint.graphics 20 3 5
    (by decide) (by decide)

theorem optShader_eq_nil (st : ShaderObjectStage) (o : Option Nat) :
    optShader st o = [] ↔ o = none := by
  cases o <;> simp [optShader]

/-- Claim C2: whenever a pipeline is bound and its layout's declared
push-constant ranges differ by value from the ranges the command buffer
last wrote, the snapshot produced by Create has an empty push-constant
capture and the subsequent Restore issues zero push-constants calls. -/
theorem C2_push_constant_mismatch (cb : CommandBuffer) (bind_point : VkPipelineBindPoint)
    (ps : PipelineState)
    (hbound : (cb.lastBound (ConvertToLvlBindPoint bind_point)).pipeline_state = some ps)
    (hmismatch : ps.push_constant_ranges ≠ cb.push_constant_data_ranges) :
    (RestorablePipelineState.Create cb bind_point).push_constants_data_ = [] ∧
    (RestorablePipelineState.Create cb bind_point).Restore.countP
        Cmd.isPushConstantsCmd = 0 := by
  have hdata : (RestorablePipelineState.Create cb bind_point).push_constants_data_ = [] := by
    rw [Create_eq_of_pipeline hbound]
    simp [hmismatch]
  refine ⟨hdata, ?_⟩
  have hpc : (RestorablePipelineState.Create cb bind_point).pushConstantCmds = [] := by
    unfold RestorablePipelineState.pushConstantCmds
    rw [hdata]
    simp
  rw [countP_push_restore, hpc]
  simp

/-- Witness for C2 at cbMismatch, whose bound layout declares range
{offset 0, size 8} while the last write used {offset 0, size 4}. -/
theorem C2_push_constant_mismatch_witness :
    (RestorablePipelineState.Create cbMismatch
        VkPipelineBindPoint.graphics).push_constants_data_ = [] ∧
    (RestorablePipelineState.Create cbMismatch VkPipelineBindPoint.graphics).Restore.countP
        Cmd.isPushConstantsCmd = 0 :=
  C2_push_constant_mismatch cbMismatch VkPipelineBindPoint.graphics
    { handle := 10, push_constant_ranges := [⟨1, 0, 8⟩] } (by decide) (by decide)

/-- Claim C6: when no pipeline is bound, Create captures shader objects by
bind point — all bound graphics-stage shader objects for Graphics, the
single bound compute shader object (if present) for Compute, and nothing
for any other bind point. -/
theorem C6_shader_object_capture (cb : CommandBuffer) (bind_point : VkPipelineBindPoint)
    (hbound : (cb.lastBound (ConvertToLvlBindPoint bind_point)).pipeline_state = none) :
    (RestorablePipelineState.Create cb bind_point).shader_objects_ =
      (match bind_point with
       | VkPipelineBindPoint.graphics =>
         (cb.lastBound BindPointLvl.graphics).GetAllBoundGraphicsShaders
       | VkPipelineBindPoint.compute =>
         (match (cb.lastBound BindPointLvl.compute).GetShaderState
             ShaderObjectStage.compute with
          | some h => [ShaderObject.mk ShaderObjectStage.compute h]
          | none => [])
       | VkPipelineBindPoint.rayTracing => []) := by
  rw [Create_eq_of_no_pipeline hbound]
  cases bind_point <;> simp [ConvertToLvlBindPoint]

/-- Witness for C6: on cbShaderObjects (vertex and fragment shader objects
bound, no pipeline), the graphics-bind-point capture is exactly the bound
graphics-stage shader objects. -/
theorem C6_shader_object_capture_witness :
    (RestorablePipelineState.Create cbShaderObjects
        VkPipelineBindPoint.graphics).shader_objects_ =
      (cbShaderObjects.lastBound BindPointLvl.graphics).GetAllBoundGraphicsShaders :=
  C6_shader_object_capture cbShaderObjects VkPipelineBindPoint.graphics (by decide)

/-- Claim C5: for every valid command-buffer state and bind point, the
snapshot produced by Create never has both a populated pipeline variant
(non-null pipeline handle) and a populated shader-object variant (non-empty
shader-object list); both are unpopulated exactly when the command buffer
had no bindings at all for that bind point. -/
theorem C5_variant_mutual_exclusion (cb : CommandBuffer) (bind_point : VkPipelineBindPoint)
    (hvalid : validCommandBuffer cb = true) :
    ((RestorablePipelineState.Create cb bind_point).pipeline_ = VK_NULL_HANDLE ∨
      (RestorablePipelineState.Create cb bind_point).shader_objects_ = []) ∧
    ((RestorablePipelineState.Create cb bind_point).pipeline_ = VK_NULL_HANDLE ∧
        (RestorablePipelineState.Create cb bind_point).shader_objects_ = [] →
      hasNoBindings cb bind_point = true) ∧
    (hasNoBindings cb bind_point = true →
      (RestorablePipelineState.Create cb bind_point).pipeline_ = VK_NULL_HANDLE ∧
      (RestorablePipelineState.Create cb bind_point).shader_objects_ = []) := by
  simp only [validCommandBuffer, Bool.and_eq_true] at hvalid
  obtain ⟨⟨⟨hvg, hvc⟩, hvr⟩, _⟩ := hvalid
  cases bind_point with
  | graphics =>
    simp only [validLastBound, Bool.and_eq_true] at hvg
    obtain ⟨hvg1, hvg2⟩ := hvg
    cases hb : cb.lastBoundGraphics.pipeline_state with
    | some ps =>
      have hbound : (cb.lastBound
          (ConvertToLvlBindPoint VkPipelineBindPoint.graphics)).pipeline_state = some ps := hb
      rw [Create_eq_of_pipeline hbound]
      rw [hb] at hvg1
      have hps : ps.handle ≠ VK_NULL_HANDLE := by simpa using hvg1
      refine ⟨Or.inr rfl, ?_, ?_⟩
      · intro hcon
        exact absurd hcon.1 hps
      · intro hnb
        simp [hasNoBindings, CommandBuffer.lastBound, ConvertToLvlBindPoint, hb] at hnb
    | none =>
      have hbound : (cb.lastBound
          (ConvertToLvlBindPoint VkPipelineBindPoint.graphics)).pipeline_state = none := hb
      rw [Create_eq_of_no_pipeline hbound]
      have hcomp : cb.lastBoundGraphics.compute_shader_object = none := by
        simpa [Option.isNone_iff_eq_none] using hvg2
      refine ⟨Or.inl rfl, ?_, ?_⟩
      · intro hcon
        have hga : cb.lastBoundGraphics.GetAllBoundGraphicsShaders = [] := hcon.2
        simp [hasNoBindings, CommandBuffer.lastBound, ConvertToLvlBindPoint, hb,
          LastBound.boundShaderObjects, hcomp, optShader, hga]
      · intro hnb
        simp only [hasNoBindings, CommandBuffer.lastBound, ConvertToLvlBindPoint,
          Bool.and_eq_true, List.isEmpty_iff, List.append_eq_nil,
          LastBound.boundShaderObjects] at hnb
        exact ⟨rfl, hnb.2.1⟩
  | compute =>
    simp only [validLastBound, Bool.and_eq_true] at hvc
    obtain ⟨hvc1, hvc2⟩ := hvc
    cases hb : cb.lastBoundCompute.pipeline_state with
    | some ps =>
      have hbound : (cb.lastBound
          (ConvertToLvlBindPoint VkPipelineBindPoint.compute)).pipeline_state = some ps := hb
      rw [Create_eq_of_pipeline hbound]
      rw [hb] at hvc1
      have hps : ps.handle ≠ VK_NULL_HANDLE := by simpa using hvc1
      refine ⟨Or.inr rfl, ?_, ?_⟩
      · intro hcon
        exact absurd hcon.1 hps
      · intro hnb
        simp [hasNoBindings, CommandBuffer.lastBound, ConvertToLvlBindPoint, hb] at hnb
    | none =>
      have hbound : (cb.lastBound
          (ConvertToLvlBindPoint VkPipelineBindPoint.compute)).pipeline_state = none := hb
      rw [Create_eq_of_no_pipeline hbound]
      have hgr : cb.lastBoundCompute.GetAllBoundGraphicsShaders = [] := by
        simpa [List.isEmpty_iff] using hvc2
      refine ⟨Or.inl rfl, ?_, ?_⟩
      · intro hcon
        have h2 : (match cb.lastBoundCompute.GetShaderState ShaderObjectStage.compute with
            | some compute_shader =>
              [ShaderObject.mk ShaderObjectStage.compute compute_shader]
            | none => ([] : List ShaderObject)) = [] := hcon.2
        cases hcs : cb.lastBoundCompute.GetShaderState ShaderObjectStage.compute with
        | some h =>
          rw [hcs] at h2
          simp at h2
        | none =>
          have hcn : cb.lastBoundCompute.compute_shader_object = none := hcs
          simp [hasNoBindings, CommandBuffer.lastBound, ConvertToLvlBindPoint, hb,
            LastBound.boundShaderObjects, hgr, hcn, optShader]
      · intro hnb
        simp only [hasNoBindings, CommandBuffer.lastBound, ConvertToLvlBindPoint,
          Bool.and_eq_true, List.isEmpty_iff, List.append_eq_nil,
          LastBound.boundShaderObjects] at hnb
        have hcn : cb.lastBoundCompute.compute_shader_object = none :=
          (optShader_eq_nil _ _).mp hnb.2.2
        refine ⟨rfl, ?_⟩
        show (match cb.lastBoundCompute.GetShaderState ShaderObjectStage.compute with
          | some compute_shader =>
            [ShaderObject.mk ShaderObjectStage.compute compute_shader]
          | none => ([] : List ShaderObject)) = []
        have hgs : cb.lastBoundCompute.GetShaderState ShaderObjectStage.compute = none := hcn
        rw [hgs]
  | rayTracing =>
    simp only [validLastBound, Bool.and_eq_true] at hvr
    obtain ⟨hvr1, hvr2⟩ := hvr
    cases hb : cb.lastBoundRayTracing.pipeline_state with
    | some ps =>
      have hbound : (cb.lastBound
          (ConvertToLvlBindPoint VkPipelineBindPoint.rayTracing)).pipeline_state =
            some ps := hb
      rw [Create_eq_of_pipeline hbound]
      rw [hb] at hvr1
      have hps : ps.handle ≠ VK_NULL_HANDLE := by simpa using hvr1
      refine ⟨Or.inr rfl, ?_, ?_⟩
      · intro hcon
        exact absurd hcon.1 hps
      · intro hnb
        simp [hasNoBindings, CommandBuffer.lastBound, ConvertToLvlBindPoint, hb] at hnb
    | none =>
      have hbound : (cb.lastBound
          (ConvertToLvlBindPoint VkPipelineBindPoint.rayTracing)).pipeline_state = none := hb
      rw [Create_eq_of_no_pipeline hbound]
      refine ⟨Or.inl rfl, ?_, ?_⟩
      · intro hcon
        simp [hasNoBindings, CommandBuffer.lastBound, ConvertToLvlBindPoint, hb, hvr2]
      · intro hnb
        exact ⟨rfl, rfl⟩

/-- Witness for C5 at the valid state cbShaderObjects and the graphics bind
point: the pipeline variant of the snapshot is unpopulated. -/
theorem C5_variant_mutual_exclusion_witness :
    (RestorablePipelineState.Create cbShaderObjects
        VkPipelineBindPoint.graphics).pipeline_ = VK_NULL_HANDLE ∨
    (RestorablePipelineState.Create cbShaderObjects
        VkPipelineBindPoint.graphics).shader_objects_ = [] :=
  (C5_variant_mutual_exclusion cbShaderObjects VkPipelineBindPoint.graphics (by decide)).1

theorem execBindFirst_restore_of_no_shaders (s : RestorablePipelineState)
    (hsh : s.shader_objects_ = []) : execBindFirst s.Restore := by
  unfold RestorablePipelineState.Restore
  have hshc : s.shaderObjectCmds = [] := by
    unfold RestorablePipelineState.shaderObjectCmds
    rw [hsh]
    simp
  rw [hshc, List.append_nil]
  by_cases hp : s.pipeline_ ≠ VK_NULL_HANDLE
  · rw [if_pos hp]
    refine ⟨rfl, ?_⟩
    intro d hd
    rcases List.mem_append.mp hd with h1 | h2
    · rcases List.mem_append.mp h1 with hds | hpd
      · have hds2 : d ∈ restoreDescriptorSets s.cmd_buffer_ s.pipeline_bind_point_
            s.pipeline_layout s.descriptor_sets_ s.dynamic_offsets_ := hds
        obtain ⟨idx, h, dyn, hceq, _⟩ := mem_restoreDescriptorSets hds2
        subst hceq
        rfl
      · have hc := mem_pushDescriptorCmds hpd
        subst hc
        rfl
    · obtain ⟨r, _, _, hceq⟩ := mem_pushConstantCmds h2
      subst hceq
      rfl
  · rw [if_neg hp]
    exact trivial

theorem execBindFirst_restore_of_null_pipeline (s : RestorablePipelineState)
    (hp : s.pipeline_ = VK_NULL_HANDLE) : execBindFirst s.Restore := by
  unfold RestorablePipelineState.Restore
  rw [if_neg (by simp [hp]), List.nil_append]
  unfold RestorablePipelineState.shaderObjectCmds
  by_cases hsh : s.shader_objects_ ≠ []
  · rw [if_pos hsh]
    exact ⟨rfl, fun d hd => absurd hd (by simp)⟩
  · rw [if_neg hsh]
    exact trivial

/-- Claim C7: in the command sequence emitted by Restore on a snapshot
produced by Create, the pipeline rebind (or shader-object rebind) is always
issued first: it is the head of the sequence and no pipeline/shader rebind
occurs later, so it never comes after a descriptor-set rebind,
push-descriptor reissue, or push-constants call. -/
theorem C7_exec_bind_first (cb : CommandBuffer) (bind_point : VkPipelineBindPoint) :
    execBindFirst (RestorablePipelineState.Create cb bind_point).Restore := by
  cases hb : (cb.lastBound (ConvertToLvlBindPoint bind_point)).pipeline_state with
  | some ps =>
    apply execBindFirst_restore_of_no_shaders
    rw [Create_eq_of_pipeline hb]
  | none =>
    apply execBindFirst_restore_of_null_pipeline
    rw [Create_eq_of_no_pipeline hb]

theorem valid_pipeline_handle {cb : CommandBuffer} {lv : BindPointLvl} {ps : PipelineState}
    (hvalid : validCommandBuffer cb = true)
    (hb : (cb.lastBound lv).pipeline_state = some ps) : ps.handle ≠ VK_NULL_HANDLE := by
  simp only [validCommandBuffer, Bool.and_eq_true] at hvalid
  obtain ⟨⟨⟨hvg, hvc⟩, hvr⟩, _⟩ := hvalid
  cases lv with
  | graphics =>
    simp only [validLastBound, Bool.and_eq_true] at hvg
    have h1 := hvg.1
    have hb2 : cb.lastBoundGraphics.pipeline_state = some ps := hb
    rw [hb2] at h1
    simpa using h1
  | compute =>
    simp only [validLastBound, Bool.and_eq_true] at hvc
    have h1 := hvc.1
    have hb2 : cb.lastBoundCompute.pipeline_state = some ps := hb
    rw [hb2] at h1
    simpa using h1
  | rayTracing =>
    simp only [validLastBound, Bool.and_eq_true] at hvr
    have h1 := hvr.1
    have hb2 : cb.lastBoundRayTracing.pipeline_state = some ps := hb
    rw [hb2] at h1
    simpa using h1

/-- Claim C8: on a snapshot produced by Create from a valid state, a
captured push-constant range of size 0 never produces a push-constants call
on Restore — every emitted push-constants call has non-zero size, and the
number of emitted push-constants calls equals the number of captured ranges
of non-zero size. -/
theorem C8_zero_size_skip (cb : CommandBuffer) (bind_point : VkPipelineBindPoint)
    (hvalid : validCommandBuffer cb = true) :
    (∀ c ∈ (RestorablePipelineState.Create cb bind_point).Restore,
      Cmd.isPushConstantsCmd c = true → c.pushSize ≠ 0) ∧
    (RestorablePipelineState.Create cb bind_point).Restore.countP Cmd.isPushConstantsCmd =
      ((RestorablePipelineState.Create cb bind_point).push_constants_ranges_.filter
          (fun r => r.size != 0)).length := by
  constructor
  · intro c hc hp
    obtain ⟨r, _, hr0, hceq⟩ := mem_pushConstantCmds (mem_restore_push hc hp)
    subst hceq
    simpa [Cmd.pushSize] using hr0
  · cases hb : (cb.lastBound (ConvertToLvlBindPoint bind_point)).pipeline_state with
    | none =>
      have hpl : (RestorablePipelineState.Create cb bind_point).pipeline_ =
          VK_NULL_HANDLE := by
        rw [Create_eq_of_no_pipeline hb]
      have hrg : (RestorablePipelineState.Create cb bind_point).push_constants_ranges_ =
          [] := by
        rw [Create_eq_of_no_pipeline hb]
      rw [countP_push_restore, hpl, hrg]
      simp
    | some ps =>
      have hps : ps.handle ≠ VK_NULL_HANDLE := valid_pipeline_handle hvalid hb
      have hpl : (RestorablePipelineState.Create cb bind_point).pipeline_ = ps.handle := by
        rw [Create_eq_of_pipeline hb]
      have hdata : (RestorablePipelineState.Create cb bind_point).push_constants_data_ =
          if ps.push_constant_ranges = cb.push_constant_data_ranges then
            cb.push_constant_data
          else [] := by
        rw [Create_eq_of_pipeline hb]
      have hrg : (RestorablePipelineState.Create cb bind_point).push_constants_ranges_ =
          if ps.push_constant_ranges = cb.push_constant_data_ranges then
            ps.push_constant_ranges
          else [] := by
        rw [Create_eq_of_pipeline hb]
      rw [countP_push_restore, hpl, if_pos hps]
      by_cases hmatch : ps.push_constant_ranges = cb.push_constant_data_ranges
      · by_cases hdat : cb.push_constant_data = []
        · have hpc : (RestorablePipelineState.Create cb bind_point).pushConstantCmds = [] := by
            unfold RestorablePipelineState.pushConstantCmds
            rw [hdata, if_pos hmatch, hdat]
            simp
          have hall : cb.push_constant_data_ranges.all (fun r => r.size == 0) = true := by
            simp only [validCommandBuffer, Bool.and_eq_true] at hvalid
            rcases Bool.or_eq_true_iff.mp hvalid.2 with h | h
            · exact h
            · rw [hdat] at h
              simp at h
          have hfilter : ps.push_constant_ranges.filter (fun r => r.size != 0) = [] := by
            rw [List.filter_eq_nil_iff]
            intro r hr
            rw [hmatch] at hr
            have := List.all_eq_true.mp hall r hr
            simp at this
            simp [this]
          rw [hpc, hrg, if_pos hmatch, hfilter]
          simp
        · have hd2 : (RestorablePipelineState.Create cb bind_point).push_constants_data_ ≠
              [] := by
            rw [hdata, if_pos hmatch]
            exact hdat
          rw [length_pushConstantCmds _ hd2, hrg]
      · have hpc : (RestorablePipelineState.Create cb bind_point).pushConstantCmds = [] := by
          unfold RestorablePipelineState.pushConstantCmds
          rw [hdata, if_neg hmatch]
          simp
        rw [hpc, hrg, if_neg hmatch]
        simp

/-- Witness for C8 at cbScenario: one push-constants call is emitted, and
the captured ranges have exactly one entry of non-zero size. -/
theorem C8_zero_size_skip_witness :
    (RestorablePipelineState.Create cbScenario
        VkPipelineBindPoint.graphics).Restore.countP Cmd.isPushConstantsCmd =
      ((RestorablePipelineState.Create cbScenario
          VkPipelineBindPoint.graphics).push_constants_ranges_.filter
        (fun r => r.size != 0)).length :=
  (C8_zero_size_skip cbScenario VkPipelineBindPoint.graphics (by decide)).2

/-- Claim C9 (implicit): every push-constants call emitted by Restore hands
the driver the first size bytes of the captured push-constant buffer — the
data pointer is the start of the buffer, never advanced by the range's own
offset. -/
theorem C9_push_values_from_buffer_start (cb : CommandBuffer)
    (bind_point : VkPipelineBindPoint) :
    ∀ c ∈ (RestorablePipelineState.Create cb bind_point).Restore,
      Cmd.isPushConstantsCmd c = true →
      c.pushValues =
        (RestorablePipelineState.Create cb
            bind_point).push_constants_data_.take c.pushSize := by
  intro c hc hp
  obtain ⟨r, _, _, hceq⟩ := mem_pushConstantCmds (mem_restore_push hc hp)
  subst hceq
  rfl

/-- Witness for C9 at cbOffsetRange: the emitted call for the range
{offset 4, size 4} hands the driver bytes 0..3 of the captured buffer. -/
theorem C9_push_values_from_buffer_start_witness :
    (Cmd.pushConstants 7 20 1 4 4 [0, 0, 0, 0]).pushValues =
      (RestorablePipelineState.Create cbOffsetRange
          VkPipelineBindPoint.graphics).push_constants_data_.take
        (Cmd.pushConstants 7 20 1 4 4 [0, 0, 0, 0]).pushSize :=
  C9_push_values_from_buffer_start cbOffsetRange VkPipelineBindPoint.graphics
    (Cmd.pushConstants 7 20 1 4 4 [0, 0, 0, 0]) (by decide) (by decide)

theorem captureSets_length (l : List PerSet) (i : Nat) :
    (captureSets l i).1.length = (captureSets l i).2.1.length := by
  induction l generalizing i with
  | nil => rfl
  | cons p rest ih =>
    cases hps : p.bound_descriptor_set with
    | none => simpa [captureSets, hps] using ih (i + 1)
    | some ds => simp [captureSets, hps, ih (i + 1)]

theorem captureSets_index_ge (l : List PerSet) (i : Nat) :
    ∀ e ∈ (captureSets l i).1, i ≤ e.2 := by
  induction l generalizing i with
  | nil =>
    intro e he
    simp [captureSets] at he
  | cons p rest ih =>
    intro e he
    cases hps : p.bound_descriptor_set with
    | none =>
      simp only [captureSets, hps] at he
      exact le_trans (Nat.le_succ i) (ih (i + 1) e he)
    | some ds =>
      simp only [captureSets, hps] at he
      rcases List.mem_cons.mp he with h1 | h2
      · rw [h1]
      · exact le_trans (Nat.le_succ i) (ih (i + 1) e h2)

theorem captureSets_pairwise (l : List PerSet) (i : Nat) :
    List.Pairwise (fun a b => a.2 < b.2) (captureSets l i).1 := by
  induction l generalizing i with
  | nil => simp [captureSets]
  | cons p rest ih =>
    cases hps : p.bound_descriptor_set with
    | none => simpa [captureSets, hps] using ih (i + 1)
    | some ds =>
      simp only [captureSets, hps, List.pairwise_cons]
      refine ⟨?_, ih (i + 1)⟩
      intro e he
      have hge := captureSets_index_ge rest (i + 1) e he
      show i < e.2
      omega

theorem captureSets_matching (l : List PerSet) (i : Nat) :
    ∀ k, k < (captureSets l i).1.length →
      i ≤ ((captureSets l i).1.getD k (0, 0)).2 ∧
      ((captureSets l i).1.getD k (0, 0)).2 - i < l.length ∧
      ((l.getD (((captureSets l i).1.getD k (0, 0)).2 - i)
            emptyPerSet).bound_descriptor_set).map DescriptorSet.handle =
        some ((captureSets l i).1.getD k (0, 0)).1 ∧
      (l.getD (((captureSets l i).1.getD k (0, 0)).2 - i) emptyPerSet).dynamicOffsets =
        (captureSets l i).2.1.getD k [] := by
  induction l generalizing i with
  | nil =>
    intro k hk
    simp [captureSets] at hk
  | cons p rest ih =>
    intro k hk
    cases hps : p.bound_descriptor_set with
    | none =>
      simp only [captureSets, hps] at hk ⊢
      obtain ⟨h1, h2, h3, h4⟩ := ih (i + 1) k hk
      have hidx : ((captureSets rest (i + 1)).1.getD k (0, 0)).2 - i =
          (((captureSets rest (i + 1)).1.getD k (0, 0)).2 - (i + 1)) + 1 := by
        omega
      rw [hidx, List.getD_cons_succ]
      refine ⟨by omega, by simp only [List.length_cons]; omega, h3, h4⟩
    | some ds =>
      simp only [captureSets, hps] at hk ⊢
      cases k with
      | zero =>
        simp only [List.getD_cons_zero, List.getD_cons_succ, Nat.sub_self,
          List.length_cons]
        exact ⟨Nat.le_refl i, Nat.succ_pos _, by simp [hps], trivial⟩
      | succ k =>
        simp only [List.length_cons, Nat.succ_lt_succ_iff] at hk
        simp only [List.getD_cons_succ]
        obtain ⟨h1, h2, h3, h4⟩ := ih (i + 1) k hk
        have hidx : ((captureSets rest (i + 1)).1.getD k (0, 0)).2 - i =
            (((captureSets rest (i + 1)).1.getD k (0, 0)).2 - (i + 1)) + 1 := by
          omega
        rw [hidx, List.getD_cons_succ]
        refine ⟨by omega, by simp only [List.length_cons]; omega, h3, h4⟩

/-- Claim C10 (counterexample to the claim as stated): on the valid state
cbPushDescriptor — whose per-set slot 0 holds the command buffer's internal
push-descriptor set, which has a null VkDescriptorSet handle — Create
records the entry (VK_NULL_HANDLE, 0), so a recorded entry CAN have a null
handle and Restore's null-handle skip branch IS taken: no descriptor-set
bind at all is emitted for it. -/
theorem C10_null_handle_counterexample :
    validCommandBuffer cbPushDescriptor = true ∧
    (RestorablePipelineState.Create cbPushDescriptor
        VkPipelineBindPoint.graphics).descriptor_sets_ = [(VK_NULL_HANDLE, 0)] ∧
    (RestorablePipelineState.Create cbPushDescriptor
        VkPipelineBindPoint.graphics).Restore.countP Cmd.isBindDescriptorSetsCmd = 0 := by
  decide

/-- Claim C10 (amended): when a pipeline is bound, the descriptor-set list
and dynamic-offset list recorded by Create always have equal length; the
recorded set indices are strictly increasing; each entry at position k
comes from the per-set slot at its recorded index — that slot holds a bound
descriptor set with the recorded handle and the recorded dynamic offsets —
and Restore emits exactly one descriptor-set bind per recorded entry whose
handle is non-null (the null-handle skip branch is taken exactly for the
recorded null-handle entries, which are bound push-descriptor sets). -/
theorem C10_capture_structure (cb : CommandBuffer) (bind_point : VkPipelineBindPoint)
    (ps : PipelineState)
    (hbound : (cb.lastBound (ConvertToLvlBindPoint bind_point)).pipeline_state = some ps) :
    (RestorablePipelineState.Create cb bind_point).descriptor_sets_.length =
      (RestorablePipelineState.Create cb bind_point).dynamic_offsets_.length ∧
    List.Pairwise (fun a b => a.2 < b.2)
      (RestorablePipelineState.Create cb bind_point).descriptor_sets_ ∧
    (∀ k, k < (RestorablePipelineState.Create cb bind_point).descriptor_sets_.length →
      (((cb.lastBound (ConvertToLvlBindPoint bind_point)).per_set.getD
            ((RestorablePipelineState.Create cb
                bind_point).descriptor_sets_.getD k (0, 0)).2
            emptyPerSet).bound_descriptor_set).map DescriptorSet.handle =
        some ((RestorablePipelineState.Create cb
            bind_point).descriptor_sets_.getD k (0, 0)).1 ∧
      ((cb.lastBound (ConvertToLvlBindPoint bind_point)).per_set.getD
            ((RestorablePipelineState.Create cb
                bind_point).descriptor_sets_.getD k (0, 0)).2
            emptyPerSet).dynamicOffsets =
        (RestorablePipelineState.Create cb bind_point).dynamic_offsets_.getD k []) ∧
    (RestorablePipelineState.Create cb bind_point).descriptorSetCmds.length =
      ((RestorablePipelineState.Create cb bind_point).descriptor_sets_.filter
          (fun e => e.1 != VK_NULL_HANDLE)).length := by
  have h1 : (RestorablePipelineState.Create cb bind_point).descriptor_sets_ =
      (captureSets (cb.lastBound (ConvertToLvlBindPoint bind_point)).per_set 0).1 := by
    rw [Create_eq_of_pipeline hbound]
  have h2 : (RestorablePipelineState.Create cb bind_point).dynamic_offsets_ =
      (captureSets (cb.lastBound (ConvertToLvlBindPoint bind_point)).per_set 0).2.1 := by
    rw [Create_eq_of_pipeline hbound]
  refine ⟨?_, ?_, ?_, ?_⟩
  · rw [h1, h2]
    exact captureSets_length _ 0
  · rw [h1]
    exact captureSets_pairwise _ 0
  · intro k hk
    rw [h1] at hk
    obtain ⟨hge, hlt, hm1, hm2⟩ :=
      captureSets_matching (cb.lastBound (ConvertToLvlBindPoint bind_point)).per_set 0 k hk
    rw [h1, h2]
    simp only [Nat.sub_zero] at hm1 hm2
    exact ⟨hm1, hm2⟩
  · unfold RestorablePipelineState.descriptorSetCmds
    exact length_restoreDescriptorSets _ _ _ _ _

/-- Witness for C10 (amended) at cbTwoSets: equal lengths and the emitted
bind count equals the number of non-null recorded entries. -/
theorem C10_capture_structure_witness :
    (RestorablePipelineState.Create cbTwoSets
        VkPipelineBindPoint.graphics).descriptor_sets_.length =
      (RestorablePipelineState.Create cbTwoSets
          VkPipelineBindPoint.graphics).dynamic_offsets_.length ∧
    (RestorablePipelineState.Create cbTwoSets
        VkPipelineBindPoint.graphics).descriptorSetCmds.length =
      ((RestorablePipelineState.Create cbTwoSets
          VkPipelineBindPoint.graphics).descriptor_sets_.filter
        (fun e => e.1 != VK_NULL_HANDLE)).length :=
  ⟨(C10_capture_structure cbTwoSets VkPipelineBindPoint.graphics
      ⟨10, []⟩ (by decide)).1,
   (C10_capture_structure cbTwoSets VkPipelineBindPoint.graphics
      ⟨10, []⟩ (by decide)).2.2.2⟩

end GpuAv
